/-
Verification of the agent-connect server's authorization-aware data access
layer, auth middleware, route wiring and canned-response selection.

The definitions below are a shallow embedding of the TypeScript source:
  * `server/storage.ts` (`MemStorage`, `DatabaseStorage`) — agent store,
    role/team scoped queries, soft delete, creation;
  * `server/auth.ts` — `authenticateToken`, `requireRole`,
    `requireTeamAccess`, login checks;
  * `server/routes.ts` — route/middleware registration, the WebSocket
    message handler, and `simulateAgentResponse`.

JavaScript `Date` values are modelled as `Nat` timestamps; `Map` objects
preserving insertion order are modelled as lists; JavaScript truthiness of
nullable strings is modelled explicitly (`jsTruthy`).
-/
import Mathlib

namespace AgentConnect

/-- Truthiness of a JS `string | null | undefined` value: `null`, `undefined`
and the empty string are falsy. -/
def jsTruthy : Option String → Bool
  | some s => s ≠ ""
  | none => false

/-- JS `String.prototype.split` on a single-character separator, on the
character list: splitting `"x  y"` at `' '` gives `["x", "", "y"]`. -/
def splitChars (sep : Char) : List Char → List (List Char)
  | [] => [[]]
  | c :: cs =>
      let rest := splitChars sep cs
      if c = sep then [] :: rest
      else
        match rest with
        | [] => [[c]]
        | h :: t => (c :: h) :: t

/-- JS `s.split(sep)` for a single-character separator. -/
def jsSplit (s : String) (sep : Char) : List String :=
  (splitChars sep s.data).map (fun l => ⟨l⟩)

/-- JS `s.toLowerCase()` (ASCII case mapping suffices for the keyword
matching performed by the server). -/
def lowerStr (s : String) : String := ⟨s.data.map Char.toLower⟩

/-- Whether `pat` is a prefix of the character list. -/
def listIsPrefix : List Char → List Char → Bool
  | [], _ => true
  | _ :: _, [] => false
  | a :: as, b :: bs => a = b && listIsPrefix as bs

/-- Whether `pat` occurs contiguously in `hay`. -/
def listHasInfix (hay pat : List Char) : Bool :=
  match hay with
  | [] => listIsPrefix pat []
  | h :: t => listIsPrefix pat (h :: t) || listHasInfix t pat

/-- JS `s.includes(pat)`. -/
def strContains (s pat : String) : Bool := listHasInfix s.data pat.data

/-- An `agents` row (`shared/schema.ts`, table `agents`), dates as `Nat`
epoch ms. `capabilities` is a nullable `jsonb` column holding a string
list; `description`, `containerUrl` and `dockerImage` are nullable text
columns. -/
structure Agent where
  id : String
  name : String
  team : String
  description : Option String
  techStack : String
  agentType : String
  status : String
  containerUrl : Option String
  dockerImage : Option String
  responseTime : String
  uptime : String
  lastHealthCheck : Nat
  capabilities : Option (List String)
  isActive : Bool
  createdAt : Nat
  updatedAt : Nat
deriving Repr, DecidableEq

/-- `MemStorage.getAgent(id)`: plain `Map.get` — no role/team scoping and no
`isActive` filter (`server/storage.ts` line 510). -/
def memGetAgent (store : List Agent) (id : String) : Option Agent :=
  store.find? (fun a => a.id == id)

/-- `MemStorage.getAgents(userRole, userTeam)`: filters `isActive`, then
narrows to the caller's team only when `userRole === 'team_member' &&
userTeam` is truthy; every other role (admin, unrecognized, team_member
without a team) receives the whole active list, in map insertion order. -/
def memGetAgents (store : List Agent) (userRole userTeam : Option String) :
    List Agent :=
  let allAgents := store.filter (·.isActive)
  if userRole == some "team_member" && jsTruthy userTeam then
    allAgents.filter (fun a => some a.team == userTeam)
  else
    allAgents

/-- Descending-creation-time comparison used by `orderBy(desc(agents.createdAt))`. -/
def createdAtGe (a b : Agent) : Prop := b.createdAt ≤ a.createdAt

instance : DecidableRel createdAtGe := fun a b =>
  inferInstanceAs (Decidable (b.createdAt ≤ a.createdAt))

instance : IsTotal Agent createdAtGe :=
  ⟨fun a b => (Nat.le_total b.createdAt a.createdAt).imp id id⟩

instance : IsTrans Agent createdAtGe :=
  ⟨fun _ _ _ h1 h2 => Nat.le_trans h2 h1⟩

/-- `DatabaseStorage.getAgents(userRole, userTeam)` (`server/storage.ts`
lines 74–99): admin sees all active agents ordered by `createdAt`
descending; a team member with a truthy team sees the active agents of that
team, same order; anything else gets `[]`. -/
def dbGetAgents (table : List Agent) (userRole userTeam : Option String) :
    List Agent :=
  if userRole == some "admin" then
    (table.filter (·.isActive)).insertionSort createdAtGe
  else if userRole == some "team_member" && jsTruthy userTeam then
    (table.filter (fun a => a.isActive && some a.team == userTeam)).insertionSort createdAtGe
  else
    []

/-- `DatabaseStorage.getAgent(id, userRole, userTeam)` (`server/storage.ts`
lines 101–123): the row must match the id, be active, and (for a team
member) belong to the caller's team; any other role gets `undefined`. -/
def dbGetAgent (table : List Agent) (id : String) (userRole userTeam : Option String) :
    Option Agent :=
  if userRole == some "admin" then
    table.find? (fun a => a.id == id && a.isActive)
  else if userRole == some "team_member" && jsTruthy userTeam then
    table.find? (fun a => a.id == id && a.isActive && some a.team == userTeam)
  else
    none

/-- The per-row effect of a soft delete: the row matching the id loses its
active flag and has `updatedAt` refreshed; other rows are untouched. -/
def softDeleteAt (id : String) (now : Nat) (a : Agent) : Agent :=
  if a.id == id then { a with isActive := false, updatedAt := now } else a

/-- `MemStorage.deleteAgent(id)` (`server/storage.ts` lines 571–579): soft
delete. Returns `false` only when the id is absent from the map; otherwise
sets `isActive := false`, refreshes `updatedAt` and returns `true` — even
when the agent was already inactive. -/
def memDeleteAgent (store : List Agent) (id : String) (now : Nat) :
    Bool × List Agent :=
  match store.find? (fun a => a.id == id) with
  | none => (false, store)
  | some _ => (true, store.map (softDeleteAt id now))

/-- `DatabaseStorage.deleteAgent(id)` (`server/storage.ts` lines 138–143):
`UPDATE agents SET isActive = false WHERE id = ?`; returns `rowCount > 0`,
i.e. whether any row (active or not) matched the id. -/
def dbDeleteAgent (table : List Agent) (id : String) (now : Nat) :
    Bool × List Agent :=
  ((table.filter (fun a => a.id == id)).length > 0,
   table.map (softDeleteAt id now))

/-- The client-supplied `InsertAgent` shape: `insertAgentSchema` in
`shared/schema.ts` picks name, team, description, techStack, agentType,
status, containerUrl, dockerImage and capabilities from the `agents`
table. `name`, `team`, `techStack` and `agentType` are non-null text
columns; `description`, `containerUrl` and `dockerImage` are nullable
text; `status` is non-null with the column default `"offline"`, hence
optional on insert; `capabilities` is nullable `jsonb` (a string list
here). None of the text fields carries a non-emptiness constraint. -/
structure InsertAgent where
  name : String
  team : String
  description : Option String
  techStack : String
  agentType : String
  status : Option String
  containerUrl : Option String
  dockerImage : Option String
  capabilities : Option (List String)
deriving Repr, DecidableEq

/-- The `x || null` normalization applied to optional text fields in
`MemStorage.createAgent`: `undefined`, `null` and `""` all become `null`. -/
def orNull : Option String → Option String
  | some s => if s = "" then none else some s
  | none => none

/-- `MemStorage.createAgent(insertAgent)` (`server/storage.ts` lines
533–560): spreads the insert payload and then overrides — the fresh uuid,
`status = "offline"` (regardless of any client-supplied status),
`responseTime = "N/A"`, `uptime = "0%"`, `isActive = true`, fresh
timestamps, and `|| null` on description / dockerImage / containerUrl;
`capabilities` is copied verbatim from the payload. The record is then
inserted (new map key: appended in insertion order). The activity-log side
effect touches a different store and is not modelled here. -/
def memCreateAgent (store : List Agent) (x : InsertAgent) (freshId : String)
    (now : Nat) : Agent × List Agent :=
  let agent : Agent := {
    id := freshId
    name := x.name
    team := x.team
    description := orNull x.description
    techStack := x.techStack
    agentType := x.agentType
    status := "offline"
    containerUrl := orNull x.containerUrl
    dockerImage := orNull x.dockerImage
    responseTime := "N/A"
    uptime := "0%"
    lastHealthCheck := now
    capabilities := x.capabilities
    isActive := true
    createdAt := now
    updatedAt := now }
  (agent, store ++ [agent])

/-! ### Seeded sample agents (`MemStorage.initializeSampleData`)

All six sample agents are created at construction time with `new Date()`;
we fix that instant at `initTime`. `autoflow-engine`'s last health check is
one hour earlier. -/

/-- The construction instant of the seeded `MemStorage`, in epoch ms. -/
def initTime : Nat := 7200000

/-- Seeded sample agent `customercare-ai`. -/
def customercareAi : Agent := {
  id := "customercare-ai"
  name := "CustomerCare AI"
  team := "Customer Experience Team"
  description := some "AI agent for handling customer service inquiries"
  techStack := "GPT-4 + Langchain"
  agentType := "Simple reflex agents"
  status := "online"
  containerUrl := some "http://localhost:3001"
  dockerImage := some "registry.ust.com/customercare-ai:v1.2.3"
  responseTime := "1.2s avg"
  uptime := "99.8%"
  lastHealthCheck := initTime
  capabilities := some ["customer_support", "refund_processing", "order_tracking"]
  isActive := true
  createdAt := initTime
  updatedAt := initTime }

/-- Seeded sample agent `datainsight-pro`. -/
def datainsightPro : Agent := {
  id := "datainsight-pro"
  name := "DataInsight Pro"
  team := "Analytics Team"
  description := some "Advanced data analysis and insights generation"
  techStack := "Claude + Python"
  agentType := "Model-based agents"
  status := "online"
  containerUrl := some "http://localhost:3002"
  dockerImage := some "registry.ust.com/datainsight-pro:v2.1.0"
  responseTime := "2.8s avg"
  uptime := "97.5%"
  lastHealthCheck := initTime
  capabilities := some ["data_analysis", "report_generation", "predictive_modeling"]
  isActive := true
  createdAt := initTime
  updatedAt := initTime }

/-- Seeded sample agent `contentcraft-ai`. -/
def contentcraftAi : Agent := {
  id := "contentcraft-ai"
  name := "ContentCraft AI"
  team := "Marketing Team"
  description := some "Creative content generation and marketing assistance"
  techStack := "GPT-3.5 + Custom"
  agentType := "Goal-based agents"
  status := "busy"
  containerUrl := some "http://localhost:3003"
  dockerImage := some "registry.ust.com/contentcraft-ai:v1.8.5"
  responseTime := "3.5s avg"
  uptime := "95.2%"
  lastHealthCheck := initTime
  capabilities := some ["content_creation", "copywriting", "seo_optimization"]
  isActive := true
  createdAt := initTime
  updatedAt := initTime }

/-- Seeded sample agent `autoflow-engine`. -/
def autoflowEngine : Agent := {
  id := "autoflow-engine"
  name := "AutoFlow Engine"
  team := "Operations Team"
  description := some "Process automation and workflow optimization"
  techStack := "Custom ML + APIs"
  agentType := "Utility-based agents"
  status := "offline"
  containerUrl := some "http://localhost:3004"
  dockerImage := some "registry.ust.com/autoflow-engine:v3.0.1"
  responseTime := "N/A"
  uptime := "89.1%"
  lastHealthCheck := initTime - 3600000
  capabilities := some ["workflow_automation", "process_optimization", "task_scheduling"]
  isActive := true
  createdAt := initTime
  updatedAt := initTime }

/-- Seeded sample agent `financewise-ai`. -/
def financewiseAi : Agent := {
  id := "financewise-ai"
  name := "FinanceWise AI"
  team := "Finance Team"
  description := some "Financial analysis and reporting assistant"
  techStack := "Gemini + TensorFlow"
  agentType := "Learning agents"
  status := "online"
  containerUrl := some "http://localhost:3005"
  dockerImage := some "registry.ust.com/codegenius-ai:v4.2.7"
  responseTime := "4.1s avg"
  uptime := "98.7%"
  lastHealthCheck := initTime
  capabilities := some ["financial_analysis", "budget_planning", "expense_tracking"]
  isActive := true
  createdAt := initTime
  updatedAt := initTime }

/-- Seeded sample agent `hrhelper-pro`. -/
def hrhelperPro : Agent := {
  id := "hrhelper-pro"
  name := "HR Helper Pro"
  team := "Human Resources Team"
  description := some "HR processes and employee assistance"
  techStack := "GPT-4 + RAG"
  agentType := "Hierarchical agents"
  status := "online"
  containerUrl := some "http://localhost:3006"
  dockerImage := some "registry.ust.com/chatbot-supreme:v2.9.4"
  responseTime := "1.8s avg"
  uptime := "99.2%"
  lastHealthCheck := initTime
  capabilities := some ["hr_support", "policy_guidance", "employee_onboarding"]
  isActive := true
  createdAt := initTime
  updatedAt := initTime }

/-- The agent map seeded by `MemStorage.initializeSampleData`, in insertion
order. -/
def sampleAgents : List Agent :=
  [customercareAi, datainsightPro, contentcraftAi, autoflowEngine,
   financewiseAi, hrhelperPro]

/-! ### Session/Auth manager (`server/auth.ts`) -/

/-- A `sessions` row: owning user id, opaque token, expiry (epoch ms). -/
structure SessionRow where
  userId : String
  token : String
  expiresAt : Nat
deriving Repr, DecidableEq

/-- A `users` row (the fields the auth layer reads). -/
structure UserRow where
  id : String
  username : String
  email : String
  passwordHash : String
  role : String
  team : Option String
  isActive : Bool
deriving Repr, DecidableEq

/-- Outcome of an Express middleware or handler step: either an early
`res.status(s).json({...})` reply or a call to `next()`/success. -/
inductive AuthOutcome where
  | reject (status : Nat) (message : String)
  | ok (user : UserRow)
deriving Repr, DecidableEq

/-- `const token = authHeader && authHeader.split(' ')[1]` followed by the
`if (!token)` guard: yields the second space-separated part of the header
when it exists and is non-empty (JS falsiness of `""` and `undefined`). -/
def bearerToken (authHeader : Option String) : Option String :=
  match authHeader with
  | none => none
  | some h =>
      match (jsSplit h ' ').get? 1 with
      | none => none
      | some t => if t = "" then none else some t

/-- `authenticateToken` (`server/auth.ts` lines 115–168). `verify` stands
for `jwt.verify` with the server secret (a library call, out of scope per
the spec): it returns the decoded `userId` payload, or `none` when the
signature is invalid or the token expired, which the `catch` block answers
with 403. The session must match both token and decoded user id, must not
be past its `expiresAt`, and the user row must exist with
`isActive = true`. -/
def authenticateToken (verify : String → Option String)
    (sessions : List SessionRow) (users : List UserRow) (now : Nat)
    (authHeader : Option String) : AuthOutcome :=
  match bearerToken authHeader with
  | none => .reject 401 "Access token required"
  | some token =>
      match verify token with
      | none => .reject 403 "Invalid token"
      | some uid =>
          match sessions.find? (fun s => s.token == token && s.userId == uid) with
          | none => .reject 401 "Invalid or expired token"
          | some session =>
              if session.expiresAt < now then
                .reject 401 "Invalid or expired token"
              else
                match users.find? (fun u => u.id == uid && u.isActive) with
                | none => .reject 401 "User not found or inactive"
                | some u => .ok u

/-- Result of a gate middleware that does not attach a user. -/
inductive GateResult where
  | reject (status : Nat) (message : String)
  | next
deriving Repr, DecidableEq

/-- `requireRole(roles)` (`server/auth.ts` lines 170–182): 401 without an
attached user, 403 when the user's role is not in the allow-list. -/
def requireRole (roles : List String) (user : Option UserRow) : GateResult :=
  match user with
  | none => .reject 401 "Authentication required"
  | some u =>
      if roles.contains u.role then .next
      else .reject 403 "Insufficient permissions"

/-- `requireTeamAccess` (`server/auth.ts` lines 184–196): 401 without an
attached user; admins fall through via the dedicated branch, and every
other authenticated user falls through via the trailing `next()` (the
comment defers team checks to the route handlers). -/
def requireTeamAccess (user : Option UserRow) : GateResult :=
  match user with
  | none => .reject 401 "Authentication required"
  | some u => if u.role = "admin" then .next else .next

/-- `POST /api/auth/login` body of the handler after `loginSchema.parse`
(`server/routes.ts` lines 153–187). `pwCheck password hash` stands for
`bcrypt.compare` (library call). Unknown username, inactive user and wrong
password are all answered `401 "Invalid credentials"`. -/
def loginRoute (users : List UserRow) (pwCheck : String → String → Bool)
    (username password : String) : Nat × String :=
  match users.find? (fun u => u.username == username) with
  | none => (401, "Invalid credentials")
  | some u =>
      if !u.isActive then (401, "Invalid credentials")
      else if pwCheck password u.passwordHash then (200, "Login successful")
      else (401, "Invalid credentials")

/-! ### Route registration (`server/routes.ts`)

Each route is registered with the exact middleware chain it carries in
`registerRoutes`; `runGates` folds that chain over a request the way
Express does, stopping at the first middleware that replies. -/

/-- A middleware reference as it appears in a route registration. -/
inductive Middleware where
  | auth
  | role (roles : List String)
  | teamAccess
deriving Repr, DecidableEq

/-- Run a registered middleware chain on a request. Returns the early
reply of the first rejecting middleware, or the authenticated user context
(if any) that reaches the handler. -/
def runGates (verify : String → Option String) (sessions : List SessionRow)
    (users : List UserRow) (now : Nat) (authHeader : Option String) :
    List Middleware → Option UserRow → Except (Nat × String) (Option UserRow)
  | [], ctx => .ok ctx
  | .auth :: rest, _ =>
      match authenticateToken verify sessions users now authHeader with
      | .reject s m => .error (s, m)
      | .ok u => runGates verify sessions users now authHeader rest (some u)
  | .role roles :: rest, ctx =>
      match requireRole roles ctx with
      | .reject s m => .error (s, m)
      | .next => runGates verify sessions users now authHeader rest ctx
  | .teamAccess :: rest, ctx =>
      match requireTeamAccess ctx with
      | .reject s m => .error (s, m)
      | .next => runGates verify sessions users now authHeader rest ctx

/-- Middleware chain of `GET /api/agents/:id` (line 215):
`authenticateToken, requireTeamAccess`. -/
def getAgentByIdGates : List Middleware := [.auth, .teamAccess]

/-- Middleware chain of `POST /api/agents` (line 228):
`authenticateToken, requireRole(['admin'])`. -/
def postAgentsGates : List Middleware := [.auth, .role ["admin"]]

/-- Middleware chain of `PATCH /api/agents/:id/status` (line 263):
`authenticateToken, requireRole(['admin'])`. -/
def patchStatusGates : List Middleware := [.auth, .role ["admin"]]

/-- Middleware chain of `POST /api/agents/:id/container/:action`
(line 275): the route is registered with no middleware at all. -/
def containerActionGates : List Middleware := []

/-- Middleware chain of `POST /api/agents/:id/scale` (line 303): the route
is registered with no middleware at all. -/
def scaleGates : List Middleware := []

/-- `GET /api/agents/:id` (`server/routes.ts` lines 215–226): after the
gates, the handler calls `storage.getAgent(req.params.id)` — the
`MemStorage` lookup, with no role/team argument — and answers 404 when it
is `undefined`, else 200 with the agent. -/
def getAgentByIdRoute (store : List Agent) (verify : String → Option String)
    (sessions : List SessionRow) (users : List UserRow) (now : Nat)
    (authHeader : Option String) (id : String) : Nat × Option Agent :=
  match runGates verify sessions users now authHeader getAgentByIdGates none with
  | .error (s, _) => (s, none)
  | .ok _ =>
      match memGetAgent store id with
      | none => (404, none)
      | some a => (200, some a)

/-- `POST /api/agents/:id/container/:action` (`server/routes.ts` lines
275–301): no gate runs; the handler simulates the container action,
updates the agent status (`start`/`deploy` → online, `stop` → offline,
otherwise busy), logs, and answers 200. -/
def containerActionRoute (store : List Agent) (verify : String → Option String)
    (sessions : List SessionRow) (users : List UserRow) (now : Nat)
    (authHeader : Option String) (id action : String) : Nat × String × List Agent :=
  match runGates verify sessions users now authHeader containerActionGates none with
  | .error (s, m) => (s, m, store)
  | .ok _ =>
      let newStatus :=
        if action = "start" || action = "deploy" then "online"
        else if action = "stop" then "offline"
        else "busy"
      let store' := store.map (fun a =>
        if a.id == id then
          { a with status := newStatus, lastHealthCheck := now, updatedAt := now }
        else a)
      (200, "Container " ++ action ++ " completed", store')

/-- `POST /api/agents/:id/scale` (`server/routes.ts` lines 303–324): no
gate runs; the handler simulates scaling, logs, and answers 200. -/
def scaleRoute (verify : String → Option String) (sessions : List SessionRow)
    (users : List UserRow) (now : Nat) (authHeader : Option String)
    (replicas : Nat) : Nat × String :=
  match runGates verify sessions users now authHeader scaleGates none with
  | .error (s, m) => (s, m)
  | .ok _ => (200, "Agent scaled to " ++ toString replicas ++ " replicas")

/-- `POST /api/agents` gate outcome (`server/routes.ts` line 228): the
reply produced by the middleware chain before the creation handler runs;
`none` means the handler is reached. -/
def postAgentsGateReply (verify : String → Option String)
    (sessions : List SessionRow) (users : List UserRow) (now : Nat)
    (authHeader : Option String) : Option (Nat × String) :=
  match runGates verify sessions users now authHeader postAgentsGates none with
  | .error r => some r
  | .ok _ => none

/-- `PATCH /api/agents/:id/status` gate outcome (`server/routes.ts` line
263), same chain as `POST /api/agents`. -/
def patchStatusGateReply (verify : String → Option String)
    (sessions : List SessionRow) (users : List UserRow) (now : Nat)
    (authHeader : Option String) : Option (Nat × String) :=
  match runGates verify sessions users now authHeader patchStatusGates none with
  | .error r => some r
  | .ok _ => none

/-! ### Canned-response selection (`simulateAgentResponse`,
`server/routes.ts` lines 449–524) -/

/-- Fixed unavailability reply when the bound agent id resolves to no
agent. -/
def unavailableMsg : String :=
  "I'm sorry, I'm currently unavailable. Please try again later."

/-- Canned override for messages containing `refund`/`return`. -/
def refundMsg : String :=
  "I can definitely help you with your refund request. Let me process that for you right away."

/-- Canned override for messages containing `problem`/`issue`/`damaged`. -/
def problemMsg : String :=
  "I understand there's an issue. I'm here to help resolve this for you as quickly as possible."

/-- Canned override for messages containing `order`/`purchase`. -/
def orderMsg : String :=
  "I can look up your order details and help you with any questions about your purchase."

/-- Canned greeting override for messages containing `hello`/`hi`,
templated on the bound agent's name and taxonomy type. -/
def helloMsg (agent : Agent) : String :=
  "Hello! I'm " ++ agent.name ++ ", a " ++ agent.agentType ++
    " agent, and I'm here to help you today. What can I assist you with?"

/-- The `responses` pool for `Simple reflex agents`. -/
def poolSimpleReflex : List String := [
  "I respond directly to current inputs based on predefined condition-action rules.",
  "My responses are immediate and based on the current situation I perceive.",
  "I follow simple if-then rules to provide quick, reactive assistance.",
  "I can handle straightforward requests with immediate pattern-based responses.",
  "My behavior is determined by current input stimuli and predefined responses."]

/-- The `responses` pool for `Model-based agents`. -/
def poolModelBased : List String := [
  "I maintain an internal model of the world to make informed decisions.",
  "Based on my understanding of the current state and history, here's my analysis.",
  "I consider both current inputs and my internal state model to provide responses.",
  "My recommendations take into account the broader context and environmental factors.",
  "I use my world model to predict outcomes and suggest optimal actions."]

/-- The `responses` pool for `Goal-based agents`. -/
def poolGoalBased : List String := [
  "I'm working towards achieving specific objectives in my response planning.",
  "Let me determine the best course of action to reach the desired goal.",
  "I'll analyze different action sequences to achieve the optimal outcome.",
  "My recommendations are designed to help you reach your specified objectives.",
  "I consider future consequences and goal achievement in my decision-making."]

/-- The `responses` pool for `Utility-based agents`. -/
def poolUtilityBased : List String := [
  "I'm evaluating multiple options to maximize overall utility and satisfaction.",
  "Based on utility calculations, here's the most beneficial approach.",
  "I consider trade-offs and preferences to recommend the highest-value solution.",
  "My analysis weighs different factors to optimize for the best overall outcome.",
  "I can help balance competing objectives to achieve maximum utility."]

/-- The `responses` pool for `Learning agents`. -/
def poolLearning : List String := [
  "I continuously improve my performance based on experience and feedback.",
  "My responses adapt and evolve based on previous interactions and outcomes.",
  "I'm incorporating new knowledge to provide increasingly better assistance.",
  "Through machine learning, I can enhance my problem-solving capabilities.",
  "I learn from each interaction to improve future responses and recommendations."]

/-- The `responses` pool for `Hierarchical agents`. -/
def poolHierarchical : List String := [
  "I coordinate multiple sub-agents and processes to handle complex tasks.",
  "My approach involves decomposing complex problems into manageable subtasks.",
  "I manage different levels of abstraction to provide comprehensive solutions.",
  "I coordinate between high-level planning and low-level execution tasks.",
  "My hierarchical structure allows for sophisticated multi-level problem solving."]

/-- The generic fallback pool used when the agent's type keys none of the
six pools (`responses[agent.agentType] || [...]`). -/
def poolGeneric : List String := [
  "I'm here to help you with your request.",
  "Thank you for your message. I'm processing your request.",
  "I understand what you need. Let me assist you with that.",
  "I'm working on this for you right now.",
  "I appreciate your patience while I handle your request."]

/-- `responses[agent.agentType] || genericPool`: the record lookup keyed by
the agent's taxonomy type. -/
def poolFor (agentType : String) : List String :=
  if agentType = "Simple reflex agents" then poolSimpleReflex
  else if agentType = "Model-based agents" then poolModelBased
  else if agentType = "Goal-based agents" then poolGoalBased
  else if agentType = "Utility-based agents" then poolUtilityBased
  else if agentType = "Learning agents" then poolLearning
  else if agentType = "Hierarchical agents" then poolHierarchical
  else poolGeneric

/-- `simulateAgentResponse(agentId, userMessage)` (`server/routes.ts` lines
449–524). `pick` models `Math.floor(Math.random() * length)`, the uniform
index into the chosen pool (reduced mod the pool length to cover every
`Nat`). The lookup goes through `storage.getAgent`, the unscoped
`MemStorage` lookup. -/
def simulateAgentResponse (store : List Agent) (agentId userMessage : String)
    (pick : Nat) : String :=
  match memGetAgent store agentId with
  | none => unavailableMsg
  | some agent =>
      let agentResponses := poolFor agent.agentType
      let lowerMessage := lowerStr userMessage
      let selectedResponse := agentResponses.getD (pick % agentResponses.length) ""
      if strContains lowerMessage "refund" || strContains lowerMessage "return" then
        refundMsg
      else if strContains lowerMessage "problem" || strContains lowerMessage "issue"
          || strContains lowerMessage "damaged" then
        problemMsg
      else if strContains lowerMessage "order" || strContains lowerMessage "purchase" then
        orderMsg
      else if strContains lowerMessage "hello" || strContains lowerMessage "hi" then
        helloMsg agent
      else
        selectedResponse

/-- The response-selection policy exactly as the specification words it:
(1) unknown agent → fixed unavailability message; (3) keyword overrides
checked in priority order, first match wins; (2) otherwise the pool keyed
by the agent's taxonomy type (generic pool for an unrecognized type), with
the default picked by the uniform random index. Stated for comparison with
`simulateAgentResponse`. -/
def specResponsePolicy (store : List Agent) (agentId userMessage : String)
    (pick : Nat) : String :=
  match memGetAgent store agentId with
  | none => unavailableMsg
  | some agent =>
      let lowerMessage := lowerStr userMessage
      if strContains lowerMessage "refund" || strContains lowerMessage "return" then
        refundMsg
      else if strContains lowerMessage "problem" || strContains lowerMessage "issue"
          || strContains lowerMessage "damaged" then
        problemMsg
      else if strContains lowerMessage "order" || strContains lowerMessage "purchase" then
        orderMsg
      else if strContains lowerMessage "hello" || strContains lowerMessage "hi" then
        helloMsg agent
      else
        (poolFor agent.agentType).getD (pick % 5) ""

/-! ### WebSocket message handler (`server/routes.ts` lines 23–111) -/

/-- Per-connection state: the session id assigned at connection time and
the agent id bound by `agent_connect` (absent until then). -/
structure ConnState where
  sessionId : String
  agentId : Option String
deriving Repr, DecidableEq

/-- Client→server WebSocket message shapes. -/
inductive ClientMsg where
  | agentConnect (agentId : String)
  | agentMessage (content : String)
  | other (msgType : String)
deriving Repr, DecidableEq

/-- Server→client frames. -/
inductive Frame where
  | connectionEstablished (agentId sessionId : String)
  | agentResponse (content : String) (responseTime : Nat)
  | errorFrame (message : String)
deriving Repr, DecidableEq

/-- An observable effect of handling one message: an immediate `ws.send`,
or the `setTimeout` task scheduled for an `agent_message`, which will later
persist the Interaction and send the `agent_response` frame. -/
inductive WsEffect where
  | send (frame : Frame)
  | scheduleResponse (agentId sessionId content : String)
deriving Repr, DecidableEq

/-- The `ws.on('message')` switch (`server/routes.ts` lines 30–102).
`agent_connect` rebinds the agent id (last write wins) and acknowledges;
`agent_message` schedules the simulated response only when both
`ws.agentId` and `ws.sessionId` are truthy, and otherwise does nothing at
all; unknown types are logged and ignored. -/
def handleWsMessage (ws : ConnState) (msg : ClientMsg) :
    ConnState × List WsEffect :=
  match msg with
  | .agentConnect aid =>
      ({ ws with agentId := some aid },
       [.send (.connectionEstablished aid ws.sessionId)])
  | .agentMessage content =>
      if jsTruthy ws.agentId && ws.sessionId ≠ "" then
        (ws, [.scheduleResponse (ws.agentId.getD "") ws.sessionId content])
      else
        (ws, [])
  | .other _ => (ws, [])

/-! ## Theorems -/

/-- Every canned-response pool — the six taxonomy pools and the generic
fallback — holds exactly five template strings. -/
theorem poolFor_length (t : String) : (poolFor t).length = 5 := by
  unfold poolFor
  repeat' split
  all_goals rfl

/-- C10: for every authenticated request (a request that reaches
`requireTeamAccess` with a user attached), the middleware calls `next()` —
for admins and equally for every team member, including one with a null
team; no role/team filtering happens in this middleware. -/
theorem claim10_requireTeamAccess_passes (u : UserRow) :
    requireTeamAccess (some u) = .next := by
  simp [requireTeamAccess]

/-- C9: an `agent_message` received on a connection that no `agent_connect`
has bound (its `agentId` is still unset) produces no effect at all: no
frame is sent back, no response task is scheduled (hence no Interaction is
persisted), and the connection state is unchanged. -/
theorem claim9_unbound_message_dropped (sid content : String) :
    handleWsMessage ⟨sid, none⟩ (.agentMessage content) = (⟨sid, none⟩, []) := by
  simp [handleWsMessage, jsTruthy]

/-- C6: `simulateAgentResponse` selects its reply exactly by the
specification's policy: (1) an unresolvable agent id yields the fixed
unavailability message; otherwise the canned overrides are checked on the
lower-cased message in priority order — refund/return, then
problem/issue/damaged, then order/purchase, then hello/hi — first match
wins; (2)/(3) with no keyword match, the reply is drawn by the uniform
random index from the five-string pool keyed by the agent's taxonomy type
(the generic five-string pool for an unrecognized type). -/
theorem claim6_response_policy (store : List Agent)
    (agentId userMessage : String) (pick : Nat) :
    simulateAgentResponse store agentId userMessage pick
      = specResponsePolicy store agentId userMessage pick := by
  unfold simulateAgentResponse specResponsePolicy
  cases h : memGetAgent store agentId with
  | none => rfl
  | some agent => simp only [poolFor_length]

/-! ### Concrete demo fixtures used by witnesses and counterexamples -/

/-- A team member of the Analytics Team (the team of `datainsight-pro`,
not of `customercare-ai`). -/
def analyticsMember : UserRow := {
  id := "analyst-001"
  username := "analyst"
  email := "analyst@ust.com"
  passwordHash := "$2b$10$hash"
  role := "team_member"
  team := some "Analytics Team"
  isActive := true }

/-- A signature verifier recognizing exactly the analyst's token. -/
def demoVerify : String → Option String :=
  fun t => if t = "tok-analyst" then some "analyst-001" else none

/-- A session table holding one unexpired session for the analyst. -/
def demoSessions : List SessionRow :=
  [{ userId := "analyst-001", token := "tok-analyst", expiresAt := initTime + 86400000 }]

/-- A user table holding the analyst. -/
def demoUsers : List UserRow := [analyticsMember]

/-- The analyst's bearer header. -/
def demoHeader : Option String := some "Bearer tok-analyst"

/-- C4: `authenticateToken` succeeds only when the bearer token is present,
its signature verifies, a Session row matching both the token and the
decoded user id exists, that session's `expiresAt` is not in the past, and
the user exists and is active; in particular a correctly signed token with
no matching Session row is rejected, and a token whose matching Session has
`expiresAt` in the past is rejected even though its signature is valid. -/
theorem claim4_token_validation (verify : String → Option String)
    (sessions : List SessionRow) (users : List UserRow) (now : Nat)
    (authHeader : Option String) :
    (∀ u, authenticateToken verify sessions users now authHeader = .ok u →
      ∃ token uid session,
        bearerToken authHeader = some token ∧
        verify token = some uid ∧
        session ∈ sessions ∧ session.token = token ∧ session.userId = uid ∧
        ¬ session.expiresAt < now ∧
        u ∈ users ∧ u.id = uid ∧ u.isActive = true) ∧
    (∀ token uid, bearerToken authHeader = some token →
      verify token = some uid →
      sessions.find? (fun s => s.token == token && s.userId == uid) = none →
      authenticateToken verify sessions users now authHeader
        = .reject 401 "Invalid or expired token") ∧
    (∀ token uid session, bearerToken authHeader = some token →
      verify token = some uid →
      sessions.find? (fun s => s.token == token && s.userId == uid) = some session →
      session.expiresAt < now →
      authenticateToken verify sessions users now authHeader
        = .reject 401 "Invalid or expired token") := by
  refine ⟨?_, ?_, ?_⟩
  · intro u hu
    unfold authenticateToken at hu
    cases hb : bearerToken authHeader with
    | none => simp [hb] at hu
    | some token =>
      simp only [hb] at hu
      cases hv : verify token with
      | none => simp [hv] at hu
      | some uid =>
        simp only [hv] at hu
        cases hs : sessions.find? (fun s => s.token == token && s.userId == uid) with
        | none => simp [hs] at hu
        | some session =>
          simp only [hs] at hu
          by_cases hexp : session.expiresAt < now
          · simp [if_pos hexp] at hu
          · simp only [if_neg hexp] at hu
            cases hus : users.find? (fun v => v.id == uid && v.isActive) with
            | none => simp [hus] at hu
            | some v =>
              simp only [hus] at hu
              cases hu
              have hsmem := List.mem_of_find?_eq_some hs
              have hspred := List.find?_some hs
              have humem := List.mem_of_find?_eq_some hus
              have hupred := List.find?_some hus
              simp only [Bool.and_eq_true, beq_iff_eq] at hspred hupred
              exact ⟨token, uid, session, rfl, hv, hsmem, hspred.1, hspred.2,
                hexp, humem, hupred.1, hupred.2⟩
  · intro token uid hb hv hs
    simp [authenticateToken, hb, hv, hs]
  · intro token uid session hb hv hs hexp
    simp [authenticateToken, hb, hv, hs, if_pos hexp]

/-- Witness for C4: the analyst's correctly signed token, presented against
an empty session table, is rejected. -/
theorem claim4_witness :
    authenticateToken demoVerify [] demoUsers initTime demoHeader
      = .reject 401 "Invalid or expired token" :=
  (claim4_token_validation demoVerify [] demoUsers initTime demoHeader).2.1
    "tok-analyst" "analyst-001" rfl (by simp [demoVerify]) rfl

/-- Counterexample to C7: two failed authentication checks — a missing
token and an invalid signature — receive different statuses (401 vs 403)
and different messages, so the failing request can tell which part of the
credential was wrong. -/
theorem claim7_counterexample :
    authenticateToken (fun _ => none) [] [] 0 none
      = .reject 401 "Access token required" ∧
    authenticateToken (fun _ => none) [] [] 0 (some "Bearer forged")
      = .reject 403 "Invalid token" ∧
    (403 : Nat) ≠ 401 ∧
    "Access token required" ≠ "Invalid token" :=
  ⟨rfl, rfl, by decide, by decide⟩

/-- C7 as amended: the failed checks are distinguishable. A missing token
answers 401 "Access token required"; an invalid or expired signature
answers 403 "Invalid token"; an absent or expired session row answers 401
"Invalid or expired token"; a missing or inactive user answers 401 "User
not found or inactive". Only the login route answers unknown-username,
inactive-user and wrong-password failures with the identical
401 "Invalid credentials". -/
theorem claim7_auth_errors_amended (verify : String → Option String)
    (sessions : List SessionRow) (users : List UserRow) (now : Nat)
    (authHeader : Option String) :
    (bearerToken authHeader = none →
      authenticateToken verify sessions users now authHeader
        = .reject 401 "Access token required") ∧
    (∀ token, bearerToken authHeader = some token → verify token = none →
      authenticateToken verify sessions users now authHeader
        = .reject 403 "Invalid token") ∧
    (∀ token uid, bearerToken authHeader = some token →
      verify token = some uid →
      sessions.find? (fun s => s.token == token && s.userId == uid) = none →
      authenticateToken verify sessions users now authHeader
        = .reject 401 "Invalid or expired token") ∧
    (∀ token uid session, bearerToken authHeader = some token →
      verify token = some uid →
      sessions.find? (fun s => s.token == token && s.userId == uid) = some session →
      session.expiresAt < now →
      authenticateToken verify sessions users now authHeader
        = .reject 401 "Invalid or expired token") ∧
    (∀ token uid session, bearerToken authHeader = some token →
      verify token = some uid →
      sessions.find? (fun s => s.token == token && s.userId == uid) = some session →
      ¬ session.expiresAt < now →
      users.find? (fun u => u.id == uid && u.isActive) = none →
      authenticateToken verify sessions users now authHeader
        = .reject 401 "User not found or inactive") ∧
    (∀ pwCheck username password,
      users.find? (fun u => u.username == username) = none →
      loginRoute users pwCheck username password = (401, "Invalid credentials")) ∧
    (∀ pwCheck username password u,
      users.find? (fun u => u.username == username) = some u →
      u.isActive = false →
      loginRoute users pwCheck username password = (401, "Invalid credentials")) ∧
    (∀ pwCheck username password u,
      users.find? (fun u => u.username == username) = some u →
      u.isActive = true → pwCheck password u.passwordHash = false →
      loginRoute users pwCheck username password = (401, "Invalid credentials")) := by
  refine ⟨?_, ?_, ?_, ?_, ?_, ?_, ?_, ?_⟩
  · intro hb
    simp [authenticateToken, hb]
  · intro token hb hv
    simp [authenticateToken, hb, hv]
  · intro token uid hb hv hs
    simp [authenticateToken, hb, hv, hs]
  · intro token uid session hb hv hs hexp
    simp [authenticateToken, hb, hv, hs, if_pos hexp]
  · intro token uid session hb hv hs hexp hus
    simp [authenticateToken, hb, hv, hs, if_neg hexp, hus]
  · intro pwCheck username password hfind
    simp [loginRoute, hfind]
  · intro pwCheck username password u hfind hact
    simp [loginRoute, hfind, hact]
  · intro pwCheck username password u hfind hact hpw
    simp [loginRoute, hfind, hact, hpw]

/-- Witness for C7's amended statement: an invalid signature on the demo
tables is answered 403 "Invalid token". -/
theorem claim7_witness :
    authenticateToken (fun _ => none) demoSessions demoUsers initTime demoHeader
      = .reject 403 "Invalid token" :=
  (claim7_auth_errors_amended (fun _ => none) demoSessions demoUsers initTime
    demoHeader).2.1 "tok-analyst" rfl rfl

/-- Counterexample to C3: a request carrying no bearer token at all to the
simulated container action route (and to the scale route) is not rejected
with 401 — no authentication middleware is registered on those routes, so
the handler runs and answers 200. -/
theorem claim3_counterexample :
    (containerActionRoute sampleAgents demoVerify demoSessions demoUsers
      initTime none "customercare-ai" "start").1 = 200 ∧
    (containerActionRoute sampleAgents demoVerify demoSessions demoUsers
      initTime none "customercare-ai" "start").1 ≠ 401 ∧
    (scaleRoute demoVerify demoSessions demoUsers initTime none 3).1 = 200 ∧
    (scaleRoute demoVerify demoSessions demoUsers initTime none 3).1 ≠ 401 :=
  ⟨rfl, by decide, rfl, by decide⟩

/-- C3 as amended: `POST /api/agents` and `PATCH /api/agents/:id/status`
run `authenticateToken` then `requireRole(['admin'])`, so an authenticated
non-admin is answered 403 and a failed authentication propagates its 401 or
403 reply; but `POST /api/agents/:id/container/:action` and
`POST /api/agents/:id/scale` are registered with no authentication
middleware at all, so every request — with or without a valid bearer
token — reaches the handler and is answered 200. -/
theorem claim3_route_auth_amended (verify : String → Option String)
    (sessions : List SessionRow) (users : List UserRow) (now : Nat)
    (authHeader : Option String) :
    (∀ u, authenticateToken verify sessions users now authHeader = .ok u →
      u.role ≠ "admin" →
      postAgentsGateReply verify sessions users now authHeader
        = some (403, "Insufficient permissions") ∧
      patchStatusGateReply verify sessions users now authHeader
        = some (403, "Insufficient permissions")) ∧
    (∀ u, authenticateToken verify sessions users now authHeader = .ok u →
      u.role = "admin" →
      postAgentsGateReply verify sessions users now authHeader = none ∧
      patchStatusGateReply verify sessions users now authHeader = none) ∧
    (∀ s m, authenticateToken verify sessions users now authHeader = .reject s m →
      postAgentsGateReply verify sessions users now authHeader = some (s, m) ∧
      patchStatusGateReply verify sessions users now authHeader = some (s, m)) ∧
    (∀ store id action,
      (containerActionRoute store verify sessions users now authHeader id action).1
        = 200) ∧
    (∀ replicas, (scaleRoute verify sessions users now authHeader replicas).1 = 200) := by
  refine ⟨?_, ?_, ?_, ?_, ?_⟩
  · intro u hu hrole
    constructor <;>
      simp [postAgentsGateReply, patchStatusGateReply, postAgentsGates,
        patchStatusGates, runGates, hu, requireRole, hrole]
  · intro u hu hrole
    constructor <;>
      simp [postAgentsGateReply, patchStatusGateReply, postAgentsGates,
        patchStatusGates, runGates, hu, requireRole, hrole]
  · intro s m hu
    constructor <;>
      simp [postAgentsGateReply, patchStatusGateReply, postAgentsGates,
        patchStatusGates, runGates, hu]
  · intro store id action
    simp [containerActionRoute, containerActionGates, runGates]
  · intro replicas
    simp [scaleRoute, scaleGates, runGates]

/-- Witness for C3's amended statement: the authenticated analyst (a
non-admin) is answered 403 by the `POST /api/agents` gate. -/
theorem claim3_witness :
    postAgentsGateReply demoVerify demoSessions demoUsers initTime demoHeader
      = some (403, "Insufficient permissions") :=
  ((claim3_route_auth_amended demoVerify demoSessions demoUsers initTime
    demoHeader).1 analyticsMember (by decide) (by decide)).1

/-- C1, settled against the code: `DatabaseStorage.getAgents` behaves as
the claim states — admins get exactly the active agents in descending
`createdAt` order, a team member with a team gets exactly the active agents
of that team, and an unrecognized role or a team member without a team gets
the empty sequence — but `MemStorage.getAgents` does not: on the seeded
sample store it returns every active agent both to a team member with a
null team and to an unrecognized role, and applies no ordering. -/
theorem claim1_getAgents_scoping :
    (∀ table userTeam a,
      a ∈ dbGetAgents table (some "admin") userTeam ↔
        a ∈ table ∧ a.isActive = true) ∧
    (∀ table t a,
      a ∈ dbGetAgents table (some "team_member") (some t) ↔
        t ≠ "" ∧ a ∈ table ∧ a.isActive = true ∧ a.team = t) ∧
    (∀ table userTeam, dbGetAgents table (some "supervisor") userTeam = []) ∧
    (∀ table, dbGetAgents table (some "team_member") none = []) ∧
    (∀ table userTeam,
      (dbGetAgents table (some "admin") userTeam).Sorted createdAtGe) ∧
    memGetAgents sampleAgents (some "team_member") none = sampleAgents ∧
    memGetAgents sampleAgents (some "supervisor") (some "Operations Team")
      = sampleAgents ∧
    sampleAgents ≠ [] := by
  refine ⟨?_, ?_, ?_, ?_, ?_, ?_, ?_, ?_⟩
  · intro table userTeam a
    simp [dbGetAgents, List.mem_insertionSort, List.mem_filter]
  · intro table t a
    by_cases ht : t = ""
    · simp [dbGetAgents, jsTruthy, ht]
    · simp [dbGetAgents, jsTruthy, ht, List.mem_insertionSort, List.mem_filter,
        and_assoc]
  · intro table userTeam
    rfl
  · intro table
    rfl
  · intro table userTeam
    simp only [dbGetAgents]
    norm_num
    exact List.sorted_insertionSort createdAtGe _
  · rfl
  · rfl
  · decide

/-- C2, settled against the code: the `GET /api/agents/:id` handler calls
the unscoped `MemStorage.getAgent`, so the authenticated Analytics-Team
member receives `customercare-ai` — an active agent of another team — with
status 200, while a nonexistent id is answered 404: out-of-scope existence
is observable, unlike `DatabaseStorage.getAgent`, which answers `none`
identically in both cases. -/
theorem claim2_getAgent_existence_leak :
    getAgentByIdRoute sampleAgents demoVerify demoSessions demoUsers initTime
      demoHeader "customercare-ai" = (200, some customercareAi) ∧
    customercareAi.team ≠ "Analytics Team" ∧
    analyticsMember.role = "team_member" ∧
    analyticsMember.team = some "Analytics Team" ∧
    getAgentByIdRoute sampleAgents demoVerify demoSessions demoUsers initTime
      demoHeader "ghost-agent" = (404, none) ∧
    dbGetAgent sampleAgents "customercare-ai" (some "team_member")
      (some "Analytics Team") = none ∧
    dbGetAgent sampleAgents "ghost-agent" (some "team_member")
      (some "Analytics Team") = none := by
  refine ⟨?_, by decide, rfl, rfl, ?_, ?_, ?_⟩ <;> decide

/-- A soft delete never changes a row's id. -/
theorem softDeleteAt_id (id : String) (now : Nat) (a : Agent) :
    (softDeleteAt id now a).id = a.id := by
  unfold softDeleteAt
  split <;> rfl

/-- A row that is still active after a soft delete did not match the
deleted id, and was untouched. -/
theorem softDeleteAt_active {id : String} {now : Nat} {a : Agent}
    (h : (softDeleteAt id now a).isActive = true) :
    a.id ≠ id ∧ softDeleteAt id now a = a := by
  by_cases hid : a.id = id
  · have : (softDeleteAt id now a).isActive = false := by
      simp [softDeleteAt, hid]
    rw [this] at h
    exact absurd h (by simp)
  · exact ⟨hid, by simp [softDeleteAt, hid]⟩

/-- Everything `MemStorage.getAgents` returns is a stored, active row. -/
theorem mem_memGetAgents {store : List Agent} {role team : Option String}
    {a : Agent} (h : a ∈ memGetAgents store role team) :
    a ∈ store ∧ a.isActive = true := by
  simp only [memGetAgents] at h
  split at h
  · have h' := List.mem_filter.mp h
    exact ⟨(List.mem_filter.mp h'.1).1, (List.mem_filter.mp h'.1).2⟩
  · exact ⟨(List.mem_filter.mp h).1, (List.mem_filter.mp h).2⟩

/-- Everything `DatabaseStorage.getAgents` returns is a stored, active
row. -/
theorem mem_dbGetAgents {table : List Agent} {role team : Option String}
    {a : Agent} (h : a ∈ dbGetAgents table role team) :
    a ∈ table ∧ a.isActive = true := by
  simp only [dbGetAgents] at h
  split at h
  · rw [List.mem_insertionSort] at h
    exact ⟨(List.mem_filter.mp h).1, (List.mem_filter.mp h).2⟩
  · split at h
    · rw [List.mem_insertionSort] at h
      have h' := List.mem_filter.mp h
      have h2 := h'.2
      simp only [Bool.and_eq_true] at h2
      exact ⟨h'.1, h2.1⟩
    · simp at h

/-- Soft-deleting preserves whether a lookup by the deleted id finds a
row. -/
theorem find?_isSome_map_softDeleteAt (store : List Agent) (id : String)
    (now : Nat) :
    ((store.map (softDeleteAt id now)).find? (fun a => a.id == id)).isSome
      = (store.find? (fun a => a.id == id)).isSome := by
  have hpred : ((fun a : Agent => a.id == id) ∘ softDeleteAt id now)
      = (fun a : Agent => a.id == id) := by
    funext a
    simp [Function.comp, softDeleteAt_id]
  rw [List.find?_map, hpred]
  cases store.find? (fun a => a.id == id) <;> rfl

/-- After a soft delete, a search whose predicate demands the deleted id
together with the active flag finds nothing. -/
theorem map_softDeleteAt_pred_none (store : List Agent) (id : String)
    (now : Nat) (p : Agent → Bool)
    (hp : ∀ x, p x = true → x.id = id ∧ x.isActive = true) :
    (store.map (softDeleteAt id now)).find? p = none := by
  refine List.find?_eq_none.mpr ?_
  intro x hx hpx
  obtain ⟨b, hb, rfl⟩ := List.mem_map.mp hx
  obtain ⟨hid, hact⟩ := hp _ hpx
  rw [softDeleteAt_id] at hid
  exact (softDeleteAt_active hact).1 hid

/-- Counterexample to C5: on the seeded sample store, a second
`deleteAgent` on the same id returns `true` again — in both backends — and
`MemStorage.getAgent` still returns the soft-deleted record after the first
call. -/
theorem claim5_counterexample :
    (memDeleteAgent sampleAgents "customercare-ai" 9000000).1 = true ∧
    (memDeleteAgent (memDeleteAgent sampleAgents "customercare-ai" 9000000).2
      "customercare-ai" 9000001).1 = true ∧
    memGetAgent (memDeleteAgent sampleAgents "customercare-ai" 9000000).2
      "customercare-ai"
      = some { customercareAi with isActive := false, updatedAt := 9000000 } ∧
    (dbDeleteAgent sampleAgents "customercare-ai" 9000000).1 = true ∧
    (dbDeleteAgent (dbDeleteAgent sampleAgents "customercare-ai" 9000000).2
      "customercare-ai" 9000001).1 = true := by
  refine ⟨?_, ?_, ?_, ?_, ?_⟩ <;> decide

/-- C5 as amended: `MemStorage.deleteAgent(id)` returns `true` exactly when
a row with that id is present — soft-deleted or not — so a second call on
the same id also returns `true` (false is only for ids absent from the
store). After the first call the agent is invisible to `getAgents` of both
backends and to `DatabaseStorage.getAgent` for every role and team, but
`MemStorage.getAgent` (and hence `GET /api/agents/:id`) still returns the
soft-deleted record. -/
theorem claim5_soft_delete_amended (store : List Agent) (id : String)
    (now now' : Nat) :
    (memDeleteAgent store id now).1 = (memGetAgent store id).isSome ∧
    (memDeleteAgent (memDeleteAgent store id now).2 id now').1
      = (memGetAgent store id).isSome ∧
    (memGetAgent (memDeleteAgent store id now).2 id).isSome
      = (memGetAgent store id).isSome ∧
    (∀ role team a,
      a ∈ memGetAgents (memDeleteAgent store id now).2 role team → a.id ≠ id) ∧
    (∀ role team a,
      a ∈ dbGetAgents (memDeleteAgent store id now).2 role team → a.id ≠ id) ∧
    (∀ role team, dbGetAgent (memDeleteAgent store id now).2 id role team = none) := by
  cases hf : store.find? (fun a => a.id == id) with
  | none =>
      have hdel : memDeleteAgent store id now = (false, store) := by
        simp [memDeleteAgent, hf]
      have hall : ∀ x ∈ store, x.id ≠ id := by
        intro x hx
        have := List.find?_eq_none.mp hf x hx
        simpa using this
      rw [hdel]
      refine ⟨by simp [memGetAgent, hf], ?_, ?_, ?_, ?_, ?_⟩
      · simp [memDeleteAgent, memGetAgent, hf]
      · simp [memGetAgent, hf]
      · intro role team a ha
        exact hall a (mem_memGetAgents ha).1
      · intro role team a ha
        exact hall a (mem_dbGetAgents ha).1
      · intro role team
        unfold dbGetAgent
        have hnone : ∀ p : Agent → Bool, (∀ x, p x = true → x.id = id) →
            store.find? p = none := by
          intro p hp
          refine List.find?_eq_none.mpr ?_
          intro x hx hpx
          exact hall x hx (hp x hpx)
        split
        · refine hnone _ ?_
          intro x hx
          simp only [Bool.and_eq_true, beq_iff_eq] at hx
          exact hx.1
        · split
          · refine hnone _ ?_
            intro x hx
            simp only [Bool.and_eq_true, beq_iff_eq] at hx
            exact hx.1.1
          · rfl
  | some witness0 =>
      have hdel : memDeleteAgent store id now
          = (true, store.map (softDeleteAt id now)) := by
        simp [memDeleteAgent, hf]
      rw [hdel]
      have hsome : ((store.map (softDeleteAt id now)).find?
          (fun a => a.id == id)).isSome = true := by
        rw [find?_isSome_map_softDeleteAt, hf]
        rfl
      refine ⟨by simp [memGetAgent, hf], ?_, ?_, ?_, ?_, ?_⟩
      · cases h3 : (store.map (softDeleteAt id now)).find? (fun a => a.id == id) with
        | none => rw [h3] at hsome; simp at hsome
        | some x => simp [memDeleteAgent, h3, memGetAgent, hf]
      · rw [memGetAgent, memGetAgent, find?_isSome_map_softDeleteAt]
      · intro role team a ha
        obtain ⟨hmem, hact⟩ := mem_memGetAgents ha
        obtain ⟨b, hb, rfl⟩ := List.mem_map.mp hmem
        rw [softDeleteAt_id]
        exact (softDeleteAt_active hact).1
      · intro role team a ha
        obtain ⟨hmem, hact⟩ := mem_dbGetAgents ha
        obtain ⟨b, hb, rfl⟩ := List.mem_map.mp hmem
        rw [softDeleteAt_id]
        exact (softDeleteAt_active hact).1
      · intro role team
        unfold dbGetAgent
        split
        · refine map_softDeleteAt_pred_none _ _ _ _ ?_
          intro x hx
          simp only [Bool.and_eq_true, beq_iff_eq] at hx
          exact hx
        · split
          · refine map_softDeleteAt_pred_none _ _ _ _ ?_
            intro x hx
            simp only [Bool.and_eq_true, beq_iff_eq] at hx
            exact ⟨hx.1.1, hx.1.2⟩
          · rfl

/-- Witness for C5's amended statement: deleting `hrhelper-pro` from the
sample store returns `true` (the id is present), and the surviving agent
`datainsight-pro` returned by the admin listing afterwards indeed has a
different id. -/
theorem claim5_witness :
    (memDeleteAgent sampleAgents "hrhelper-pro" 9500000).1
      = (memGetAgent sampleAgents "hrhelper-pro").isSome ∧
    datainsightPro ∈ memGetAgents
      (memDeleteAgent sampleAgents "hrhelper-pro" 9500000).2 (some "admin") none ∧
    datainsightPro.id ≠ "hrhelper-pro" :=
  ⟨(claim5_soft_delete_amended sampleAgents "hrhelper-pro" 9500000 9500001).1,
   by decide,
   (claim5_soft_delete_amended sampleAgents "hrhelper-pro" 9500000
     9500001).2.2.2.1 (some "admin") none datainsightPro (by decide)⟩

/-- Looking up a freshly assigned id after appending the created row finds
exactly that row. -/
theorem memGetAgent_append {store : List Agent} {agent : Agent} {id : String}
    (hfresh : ∀ a ∈ store, a.id ≠ id) (hid : agent.id = id) :
    memGetAgent (store ++ [agent]) id = some agent := by
  unfold memGetAgent
  rw [List.find?_append]
  have h1 : store.find? (fun a => a.id == id) = none := by
    refine List.find?_eq_none.mpr ?_
    intro x hx hpx
    exact hfresh x hx (by simpa using hpx)
  rw [h1]
  simp [List.find?, hid]

/-- A schema-valid registration payload whose description is the empty
string and which supplies its own status. -/
def insertX0 : InsertAgent := {
  name := "Echo"
  team := "QA Team"
  description := some ""
  techStack := "GPT-4"
  agentType := "Learning agents"
  status := some "online"
  capabilities := some ["echoing"]
  dockerImage := none
  containerUrl := none }

/-- Counterexample to C8: registering an agent whose schema-valid
`description` is the empty string stores `null` instead (the `|| null`
normalization), so the round-tripped record differs from the input in a
field that is not server-assigned. -/
theorem claim8_counterexample :
    insertX0.description = some "" ∧
    (memCreateAgent [] insertX0 "agent-x" 42).1.description = none ∧
    memGetAgent (memCreateAgent [] insertX0 "agent-x" 42).2 "agent-x"
      = some (memCreateAgent [] insertX0 "agent-x" 42).1 ∧
    (memCreateAgent [] insertX0 "agent-x" 42).1.description
      ≠ insertX0.description := by
  refine ⟨rfl, rfl, ?_, ?_⟩ <;> decide

/-- C8 as amended: `createAgent(X)` always succeeds, initializes
`status = "offline"` (overriding any schema-valid client-supplied status)
and `isActive = true`, and a subsequent `getAgent` on the fresh id returns
exactly the created record; that record carries X's name, team, tech
stack, agent type and capabilities unchanged (capabilities copied
verbatim, possibly null), while id, status, responseTime, uptime,
lastHealthCheck, isActive and the timestamps are server-assigned, and the
optional text fields (description, dockerImage, containerUrl) are
preserved except that an empty string is normalized to null. -/
theorem claim8_create_roundtrip_amended (store : List Agent) (x : InsertAgent)
    (freshId : String) (now : Nat) (hfresh : ∀ a ∈ store, a.id ≠ freshId) :
    memGetAgent (memCreateAgent store x freshId now).2 freshId
      = some (memCreateAgent store x freshId now).1 ∧
    (memCreateAgent store x freshId now).1.status = "offline" ∧
    (memCreateAgent store x freshId now).1.isActive = true ∧
    (memCreateAgent store x freshId now).1.id = freshId ∧
    (memCreateAgent store x freshId now).1.createdAt = now ∧
    (memCreateAgent store x freshId now).1.updatedAt = now ∧
    (memCreateAgent store x freshId now).1.name = x.name ∧
    (memCreateAgent store x freshId now).1.team = x.team ∧
    (memCreateAgent store x freshId now).1.techStack = x.techStack ∧
    (memCreateAgent store x freshId now).1.agentType = x.agentType ∧
    (memCreateAgent store x freshId now).1.capabilities = x.capabilities ∧
    (memCreateAgent store x freshId now).1.description = orNull x.description ∧
    (memCreateAgent store x freshId now).1.dockerImage = orNull x.dockerImage ∧
    (memCreateAgent store x freshId now).1.containerUrl = orNull x.containerUrl := by
  refine ⟨?_, rfl, rfl, rfl, rfl, rfl, rfl, rfl, rfl, rfl, rfl, rfl, rfl, rfl⟩
  exact memGetAgent_append hfresh rfl

/-- Witness for C8's amended statement: registering `insertX0` into the
empty store and reading it back. -/
theorem claim8_witness :
    memGetAgent (memCreateAgent [] insertX0 "agent-y" 43).2 "agent-y"
      = some (memCreateAgent [] insertX0 "agent-y" 43).1 ∧
    (memCreateAgent [] insertX0 "agent-y" 43).1.status = "offline" ∧
    (memCreateAgent [] insertX0 "agent-y" 43).1.isActive = true :=
  ⟨(claim8_create_roundtrip_amended [] insertX0 "agent-y" 43 (by simp)).1,
   (claim8_create_roundtrip_amended [] insertX0 "agent-y" 43 (by simp)).2.1,
   (claim8_create_roundtrip_amended [] insertX0 "agent-y" 43 (by simp)).2.2.1⟩

end AgentConnect
